import Mathlib

/-!
Verification of the greenhouse-gas lab simulator (`src/streamlit_app.py`).

The core of the program is embedded shallowly:
* Python floats are modelled as exact rationals (`ℚ`); the source uses only
  literals with finite decimal expansions and the four arithmetic operations.
* `GAS_PROPERTIES` (lines 74-79) becomes an association list.
* `cooling_rate` (lines 280-288) and the Euler step of the while loop
  (lines 303-315) become pure functions.
* Streamlit's per-session mutable store becomes the record `AppState`; each
  user-visible event handler of the script becomes one constructor of `Cmd`
  with `applyCmd` giving its effect.  Per the cooperative scheduling model,
  an externally interruptible run is a sequence of `Cmd.stepOnce` iterations
  (each one execution of the while-loop body, guarded by the loop condition),
  while `Cmd.runScript` is an uninterrupted execution of section 7 of the
  script (the `if is_running` block: the while loop followed by the
  completion check on lines 333-335).
-/

namespace GreenhouseLab

/-- One value of the `GAS_PROPERTIES` table: insulation coefficient and
display color (line 74-79 of the source). -/
structure GasProps where
  insulation : ℚ
  color : String
deriving DecidableEq, Repr

/-- The `GAS_PROPERTIES` dict (lines 74-79), as an association list in the
source's insertion order. -/
def GAS_PROPERTIES : List (String × GasProps) :=
  [("Nitrogen (N2)", ⟨1, "#1f77b4"⟩),
   ("Oxygen (O2)", ⟨1, "#2ca02c"⟩),
   ("Carbon Dioxide (CO2)", ⟨4, "#ff7f0e"⟩),
   ("Methane (CH4)", ⟨8, "#d62728"⟩)]

/-- Python dict lookup `GAS_PROPERTIES.get(name)`. -/
def lookupGas (name : String) : Option GasProps :=
  GAS_PROPERTIES.lookup name

/-- `GAS_PROPERTIES[name]`.  The script only ever indexes with a key coming
from the selectbox (whose options are the dict's keys), so the default value
of `getD` is never reached on the executions the script performs. -/
def gasProps (name : String) : GasProps :=
  (lookupGas name).getD ⟨1, ""⟩

/-- `AMBIENT_TEMP = 20.0` (line 81). -/
def AMBIENT_TEMP : ℚ := 20

/-- `base_cooling = 1.5` (line 280). -/
def base_cooling : ℚ := 3/2

/-- Lines 281-288: `insulation_factor = 1.0`, raised to
`1.0 + (Insulation - 1.0) * (concentration / 1000.0)` when
`Insulation > 1.0`, and `cooling_rate = base_cooling / insulation_factor`. -/
def cooling_rate (name : String) (concentration : ℚ) : ℚ :=
  let props := gasProps name
  let insulation_factor : ℚ :=
    if 1 < props.insulation then
      1 + (props.insulation - 1) * (concentration / 1000)
    else 1
  base_cooling / insulation_factor

/-- Lines 304-315: the physics update of one loop iteration applied to the
temperature, including the floor at `AMBIENT_TEMP`. -/
def step_temp (intensity coolingRate temp : ℚ) : ℚ :=
  let dt : ℚ := 1/10
  let heat_gain := intensity * (3/2)
  let temp_diff := temp - AMBIENT_TEMP
  let heat_loss := temp_diff * coolingRate
  let net_change := (heat_gain - heat_loss) * dt
  let t := temp + net_change
  if t < AMBIENT_TEMP then AMBIENT_TEMP else t

/-- The session-state fields the simulation uses (lines 42-53). -/
structure SimulationState where
  is_running : Bool
  current_time : ℚ
  current_temp : ℚ
  history_time : List ℚ
  history_temp : List ℚ
  selected_gas : String
deriving DecidableEq, Repr

/-- Initial session state (lines 42-53). -/
def initSim : SimulationState :=
  ⟨false, 0, 20, [0], [20], "Nitrogen (N2)"⟩

/-- One entry of `saved_runs` (lines 101-105): the stored time series,
temperature series and color. -/
structure SavedRun where
  time : List ℚ
  temp : List ℚ
  color : String
deriving DecidableEq, Repr

/-- Python dict lookup on `saved_runs`. -/
def dictGet (k : String) : List (String × SavedRun) → Option SavedRun
  | [] => none
  | (k₀, v₀) :: rest => if k₀ = k then some v₀ else dictGet k rest

/-- Python dict assignment `d[k] = v`: replace the entry in place if the key
is present, append it otherwise. -/
def dictSet (k : String) (v : SavedRun) :
    List (String × SavedRun) → List (String × SavedRun)
  | [] => [(k, v)]
  | (k₀, v₀) :: rest =>
      if k₀ = k then (k, v) :: rest else (k₀, v₀) :: dictSet k v rest

/-- Full per-session state: the simulation fields plus `saved_runs`
(line 56-57). -/
structure AppState where
  sim : SimulationState
  saved_runs : List (String × SavedRun)
deriving DecidableEq, Repr

/-- Session state at session start. -/
def initApp : AppState := ⟨initSim, []⟩

/-- Lines 303-318: one iteration of the while-loop body.  The cooling rate is
computed on line 288 from the selected gas and the concentration slider; the
intensity slider feeds `heat_gain`.  The new time and the (possibly floored)
new temperature are appended to the history lists. -/
def loop_body (intensity concentration : ℚ) (s : SimulationState) :
    SimulationState :=
  let cr := cooling_rate s.selected_gas concentration
  let newTemp := step_temp intensity cr s.current_temp
  let newTime := s.current_time + 1/10
  { s with
    current_temp := newTemp
    current_time := newTime
    history_time := s.history_time ++ [newTime]
    history_temp := s.history_temp ++ [newTemp] }

/-- The number of loop iterations still possible from a state: each iteration
adds `dt = 1/10` to `current_time` and the loop runs only while
`current_time < 20`. -/
def loopFuel (s : SimulationState) : ℕ :=
  (⌈(20 - s.current_time) * 10⌉).toNat

theorem loop_body_current_time (i c : ℚ) (s : SimulationState) :
    (loop_body i c s).current_time = s.current_time + 1/10 := rfl

theorem loop_body_is_running (i c : ℚ) (s : SimulationState) :
    (loop_body i c s).is_running = s.is_running := rfl

theorem loopFuel_loop_body (i c : ℚ) (s : SimulationState)
    (h : s.current_time < 20) :
    loopFuel (loop_body i c s) + 1 = loopFuel s := by
  unfold loopFuel
  rw [loop_body_current_time]
  have h1 : (20 - (s.current_time + 1/10)) * 10 = (20 - s.current_time) * 10 - 1 := by
    ring
  rw [h1, Int.ceil_sub_one]
  have h2 : (0:ℤ) < ⌈(20 - s.current_time) * 10⌉ :=
    Int.ceil_pos.mpr (by linarith)
  omega

/-- Lines 301-331: `while is_running and current_time < 20.0: <loop_body>`. -/
def run_loop (intensity concentration : ℚ) (s : SimulationState) :
    SimulationState :=
  if h : s.is_running = true ∧ s.current_time < 20 then
    run_loop intensity concentration (loop_body intensity concentration s)
  else s
termination_by loopFuel s
decreasing_by
  have := loopFuel_loop_body intensity concentration s h.2
  omega

/-- The while loop of lines 301-331 cut off after a given number of
iterations. -/
def run_loop_fuel (intensity concentration : ℚ) :
    ℕ → SimulationState → SimulationState
  | 0, s => s
  | n + 1, s =>
      if s.is_running = true ∧ s.current_time < 20 then
        run_loop_fuel intensity concentration n
          (loop_body intensity concentration s)
      else s

/-- Section 7 of the script (lines 300-335): if `is_running`, run the while
loop; afterwards, if `current_time >= 20.0`, set `is_running` to false (the
completion check of lines 333-335 sits inside the `if is_running` block). -/
def run_script (intensity concentration : ℚ) (s : SimulationState) :
    SimulationState :=
  if s.is_running = true then
    let s' := run_loop intensity concentration s
    if 20 ≤ s'.current_time then { s' with is_running := false } else s'
  else s

/-- The user-visible events the render boundary feeds into the core.
`stepOnce` is a single while-loop iteration (executed only when the loop
condition holds), the granularity at which Pause/Reset interleave per the
cooperative scheduling model; `runScript` is an uninterrupted execution of
the whole section 7. -/
inductive Cmd where
  | play
  | pause
  | reset
  | clearHistory
  | switchGas (g : String)
  | stepOnce (intensity concentration : ℚ)
  | runScript (intensity concentration : ℚ)

/-- Effect of one event on the session state, mirroring the handlers of the
script: Play (233-234), Pause (236-237), Reset (239-245), Clear Graph
History (92-94), the gas auto-reset block (97-126), and the loop. -/
def applyCmd : Cmd → AppState → AppState
  | .play, s => { s with sim := { s.sim with is_running := true } }
  | .pause, s => { s with sim := { s.sim with is_running := false } }
  | .reset, s =>
      { s with sim :=
        { s.sim with
          is_running := false
          current_time := 0
          current_temp := AMBIENT_TEMP
          history_time := [0]
          history_temp := [AMBIENT_TEMP] } }
  | .clearHistory, s => { s with saved_runs := [] }
  | .switchGas g, s =>
      if g ≠ s.sim.selected_gas then
        let newRuns :=
          if 10 < s.sim.history_time.length then
            dictSet s.sim.selected_gas
              ⟨s.sim.history_time, s.sim.history_temp,
               (gasProps s.sim.selected_gas).color⟩
              s.saved_runs
          else s.saved_runs
        { sim :=
            { is_running := false
              current_time := 0
              current_temp := AMBIENT_TEMP
              history_time := [0]
              history_temp := [AMBIENT_TEMP]
              selected_gas := g }
          saved_runs := newRuns }
      else s
  | .stepOnce i c, s =>
      if s.sim.is_running = true ∧ s.sim.current_time < 20 then
        { s with sim := loop_body i c s.sim }
      else s
  | .runScript i c, s => { s with sim := run_script i c s.sim }

/-- Apply a sequence of events in order. -/
def applyAll (cmds : List Cmd) (s : AppState) : AppState :=
  cmds.foldl (fun s c => applyCmd c s) s

/-! ### Basic lemmas about the catalog and the saved-runs dictionary -/

theorem gasProps_of_lookup (name : String) (p : GasProps)
    (hp : lookupGas name = some p) : gasProps name = p := by
  simp [gasProps, hp]

theorem one_le_insulation (name : String) : 1 ≤ (gasProps name).insulation := by
  simp only [gasProps, lookupGas, GAS_PROPERTIES, List.lookup]
  repeat' split
  all_goals simp_all

theorem dictGet_dictSet_self (k : String) (v : SavedRun)
    (d : List (String × SavedRun)) : dictGet k (dictSet k v d) = some v := by
  induction d with
  | nil => simp [dictGet, dictSet]
  | cons hd tl ih =>
      obtain ⟨k₀, v₀⟩ := hd
      by_cases h : k₀ = k
      · simp [dictSet, dictGet, h]
      · simp [dictSet, dictGet, h, ih]

theorem dictGet_dictSet_ne (k k' : String) (v : SavedRun)
    (d : List (String × SavedRun)) (hk : k' ≠ k) :
    dictGet k' (dictSet k v d) = dictGet k' d := by
  induction d with
  | nil =>
      simp only [dictSet, dictGet]
      rw [if_neg (Ne.symm hk)]
  | cons hd tl ih =>
      obtain ⟨k₀, v₀⟩ := hd
      by_cases h : k₀ = k
      · subst h
        simp only [dictSet, if_pos rfl, dictGet]
        rw [if_neg (Ne.symm hk), if_neg (Ne.symm hk)]
      · simp [dictSet, dictGet, h, ih]

/-! ### Lemmas about the while loop -/

theorem run_loop_eq (i c : ℚ) (s : SimulationState) :
    run_loop i c s =
      if s.is_running = true ∧ s.current_time < 20 then
        run_loop i c (loop_body i c s)
      else s := by
  rw [run_loop]
  rfl

/-- Any property preserved by the loop body is preserved by the loop. -/
theorem run_loop_preserves (i c : ℚ) (P : SimulationState → Prop)
    (hP : ∀ t, P t → P (loop_body i c t)) (s : SimulationState) :
    P s → P (run_loop i c s) := by
  induction s using run_loop.induct i c with
  | case1 x hx ih =>
      intro hxP
      rw [run_loop_eq, if_pos hx]
      exact ih (hP x hxP)
  | case2 x hx =>
      intro hxP
      rw [run_loop_eq, if_neg hx]
      exact hxP

/-- When the loop returns, its guard has become false. -/
theorem run_loop_exit (i c : ℚ) (s : SimulationState) :
    ¬((run_loop i c s).is_running = true ∧ (run_loop i c s).current_time < 20) := by
  induction s using run_loop.induct i c with
  | case1 x hx ih =>
      rw [run_loop_eq, if_pos hx]
      exact ih
  | case2 x hx =>
      rw [run_loop_eq, if_neg hx]
      exact hx

/-- The loop body never writes `is_running`, so the loop leaves it intact. -/
theorem run_loop_is_running (i c : ℚ) (s : SimulationState) :
    (run_loop i c s).is_running = s.is_running := by
  induction s using run_loop.induct i c with
  | case1 x hx ih =>
      rw [run_loop_eq, if_pos hx]
      rw [ih, loop_body_is_running]
  | case2 x hx =>
      rw [run_loop_eq, if_neg hx]

/-- The loop never touches `saved_runs`-independent fields other than the
four it writes; in particular `selected_gas` is stable. -/
theorem run_loop_selected_gas (i c : ℚ) (s : SimulationState) :
    (run_loop i c s).selected_gas = s.selected_gas := by
  induction s using run_loop.induct i c with
  | case1 x hx ih =>
      rw [run_loop_eq, if_pos hx]
      exact ih
  | case2 x hx =>
      rw [run_loop_eq, if_neg hx]

/-- The while loop completes within `loopFuel s` iterations: running it with
that much fuel already reaches the loop's result. -/
theorem run_loop_eq_fuel (i c : ℚ) (s : SimulationState) :
    run_loop i c s = run_loop_fuel i c (loopFuel s) s := by
  induction s using run_loop.induct i c with
  | case1 x hx ih =>
      rw [run_loop_eq, if_pos hx, ih]
      have hf := loopFuel_loop_body i c x hx.2
      rw [← hf, run_loop_fuel, if_pos hx]
  | case2 x hx =>
      rw [run_loop_eq, if_neg hx]
      cases hfu : loopFuel x with
      | zero => rfl
      | succ n => rw [run_loop_fuel, if_neg hx]

/-- Zeta-reduced form of `run_script`. -/
theorem run_script_eq (i c : ℚ) (s : SimulationState) :
    run_script i c s =
      if s.is_running = true then
        if 20 ≤ (run_loop i c s).current_time then
          { run_loop i c s with is_running := false }
        else run_loop i c s
      else s := rfl

/-! ### Temperature floor -/

theorem loop_body_current_temp (i c : ℚ) (s : SimulationState) :
    (loop_body i c s).current_temp =
      step_temp i (cooling_rate s.selected_gas c) s.current_temp := rfl

theorem ambient_le_step_temp (i cr T : ℚ) : AMBIENT_TEMP ≤ step_temp i cr T := by
  simp only [step_temp, AMBIENT_TEMP]
  split
  · exact le_refl _
  · next h => exact le_of_not_lt h

theorem ambient_le_applyCmd (cm : Cmd) (s : AppState)
    (hs : AMBIENT_TEMP ≤ s.sim.current_temp) :
    AMBIENT_TEMP ≤ (applyCmd cm s).sim.current_temp := by
  cases cm with
  | play => exact hs
  | pause => exact hs
  | reset => exact le_refl _
  | clearHistory => exact hs
  | switchGas g =>
      by_cases h : g ≠ s.sim.selected_gas
      · simp only [applyCmd, if_pos h]
        exact le_refl _
      · simp only [applyCmd, if_neg h]
        exact hs
  | stepOnce i c =>
      by_cases h : s.sim.is_running = true ∧ s.sim.current_time < 20
      · simp only [applyCmd, if_pos h]
        rw [loop_body_current_temp]
        exact ambient_le_step_temp _ _ _
      · simp only [applyCmd, if_neg h]
        exact hs
  | runScript i c =>
      simp only [applyCmd]
      rw [run_script_eq]
      by_cases h : s.sim.is_running = true
      · rw [if_pos h]
        have hr : AMBIENT_TEMP ≤ (run_loop i c s.sim).current_temp :=
          run_loop_preserves i c (fun t => AMBIENT_TEMP ≤ t.current_temp)
            (fun t _ => by
              show AMBIENT_TEMP ≤ (loop_body i c t).current_temp
              rw [loop_body_current_temp]
              exact ambient_le_step_temp _ _ _)
            s.sim hs
        split <;> exact hr
      · rw [if_neg h]
        exact hs

theorem ambient_le_applyAll (cmds : List Cmd) :
    ∀ s : AppState, AMBIENT_TEMP ≤ s.sim.current_temp →
      AMBIENT_TEMP ≤ (applyAll cmds s).sim.current_temp := by
  induction cmds with
  | nil => exact fun s hs => hs
  | cons c rest ih => exact fun s hs => ih _ (ambient_le_applyCmd c s hs)

/-! ### Claim theorems -/

/-- C1: for every catalog gas with insulation coefficient 1 (as Nitrogen and
Oxygen have) the computed cooling rate is exactly `base_cooling` for any
concentration in `[0, 1000]`; for catalog gases with insulation
coefficient above 1 it is
`base_cooling / (1 + (insulation - 1) * (concentration / 1000))`. -/
theorem cooling_rate_formula (name : String) (p : GasProps) (c : ℚ)
    (hp : lookupGas name = some p) (h0 : 0 ≤ c) (h1 : c ≤ 1000) :
    (gasProps "Nitrogen (N2)").insulation = 1 ∧
    (gasProps "Oxygen (O2)").insulation = 1 ∧
    (p.insulation = 1 → cooling_rate name c = base_cooling) ∧
    (1 < p.insulation →
      cooling_rate name c =
        base_cooling / (1 + (p.insulation - 1) * (c / 1000))) := by
  have hgp : gasProps name = p := gasProps_of_lookup name p hp
  refine ⟨rfl, rfl, fun hins => ?_, fun hins => ?_⟩
  · simp only [cooling_rate, hgp, hins]
    norm_num
  · simp only [cooling_rate, hgp, if_pos hins]

theorem cooling_rate_formula_witness :
    lookupGas "Carbon Dioxide (CO2)" = some ⟨4, "#ff7f0e"⟩ ∧
    (0:ℚ) ≤ 500 ∧ (500:ℚ) ≤ 1000 ∧
    cooling_rate "Carbon Dioxide (CO2)" 500 =
      base_cooling /
        (1 + ((⟨4, "#ff7f0e"⟩ : GasProps).insulation - 1) * (500 / 1000)) :=
  ⟨rfl, by norm_num, by norm_num,
   (cooling_rate_formula "Carbon Dioxide (CO2)" ⟨4, "#ff7f0e"⟩ 500 rfl
      (by norm_num) (by norm_num)).2.2.2 (by norm_num)⟩

/-- C2: for every valid intensity in `[1, 10]`, every positive cooling rate
and every starting temperature at least `20`, the temperature after one
simulation step is at least `AMBIENT_TEMP`; moreover `current_temp` never
falls below `AMBIENT_TEMP` after any sequence of events from the initial
session state. -/
theorem step_keeps_ambient_floor (i cr T : ℚ) (h1 : 1 ≤ i) (h2 : i ≤ 10)
    (h3 : 0 < cr) (h4 : 20 ≤ T) :
    AMBIENT_TEMP ≤ step_temp i cr T ∧
    ∀ cmds : List Cmd, AMBIENT_TEMP ≤ (applyAll cmds initApp).sim.current_temp := by
  refine ⟨ambient_le_step_temp i cr T, fun cmds => ?_⟩
  exact ambient_le_applyAll cmds initApp (le_refl _)

theorem step_keeps_ambient_floor_witness :
    (1:ℚ) ≤ 5 ∧ (5:ℚ) ≤ 10 ∧ (0:ℚ) < 3/2 ∧ (20:ℚ) ≤ 25 ∧
    AMBIENT_TEMP ≤ step_temp 5 (3/2) 25 ∧ step_temp 5 (3/2) 25 = 25 :=
  ⟨by norm_num, by norm_num, by norm_num, by norm_num,
   (step_keeps_ambient_floor 5 (3/2) 25 (by norm_num) (by norm_num)
      (by norm_num) (by norm_num)).1,
   by norm_num [step_temp, AMBIENT_TEMP]⟩

/-- C3: for every gas, the computed cooling rate is non-increasing in the
concentration on `[0, 1000]`. -/
theorem cooling_rate_antitone (name : String) (c₁ c₂ : ℚ)
    (h0 : 0 ≤ c₁) (h12 : c₁ ≤ c₂) (h2 : c₂ ≤ 1000) :
    cooling_rate name c₂ ≤ cooling_rate name c₁ := by
  have hins := one_le_insulation name
  simp only [cooling_rate]
  by_cases h : 1 < (gasProps name).insulation
  · rw [if_pos h, if_pos h]
    set ins := (gasProps name).insulation with hins_def
    have hd1 : (0:ℚ) < 1 + (ins - 1) * (c₁ / 1000) := by
      have h0' : (0:ℚ) ≤ (ins - 1) * (c₁ / 1000) :=
        mul_nonneg (by linarith) (by positivity)
      linarith
    have hle : 1 + (ins - 1) * (c₁ / 1000) ≤ 1 + (ins - 1) * (c₂ / 1000) := by
      have hmul :=
        mul_le_mul_of_nonneg_left
          (by linarith : c₁ / 1000 ≤ c₂ / 1000)
          (by linarith : (0:ℚ) ≤ ins - 1)
      linarith
    have hbc : (0:ℚ) ≤ base_cooling := by norm_num [base_cooling]
    gcongr
  · rw [if_neg h, if_neg h]

theorem cooling_rate_antitone_witness :
    (0:ℚ) ≤ 0 ∧ (0:ℚ) ≤ 1000 ∧ (1000:ℚ) ≤ 1000 ∧
    cooling_rate "Methane (CH4)" 1000 ≤ cooling_rate "Methane (CH4)" 0 ∧
    cooling_rate "Methane (CH4)" 0 = 3/2 ∧
    cooling_rate "Methane (CH4)" 1000 = 3/16 :=
  ⟨by norm_num, by norm_num, by norm_num,
   cooling_rate_antitone "Methane (CH4)" 0 1000 (by norm_num) (by norm_num)
     (by norm_num),
   by
     simp [cooling_rate, gasProps, lookupGas, GAS_PROPERTIES, List.lookup,
       base_cooling]
     all_goals norm_num,
   by
     simp [cooling_rate, gasProps, lookupGas, GAS_PROPERTIES, List.lookup,
       base_cooling]
     all_goals norm_num⟩

/-- C7: for every prior session state, Reset restores `is_running = false`,
`current_time = 0`, `current_temp = 20`, `history_time = [0]`,
`history_temp = [20]`, and leaves `saved_runs` (and the selected gas)
unchanged: Reset never archives. -/
theorem reset_restores_defaults (s : AppState) :
    (applyCmd .reset s).sim.is_running = false ∧
    (applyCmd .reset s).sim.current_time = 0 ∧
    (applyCmd .reset s).sim.current_temp = 20 ∧
    (applyCmd .reset s).sim.history_time = [0] ∧
    (applyCmd .reset s).sim.history_temp = [20] ∧
    (applyCmd .reset s).sim.selected_gas = s.sim.selected_gas ∧
    (applyCmd .reset s).saved_runs = s.saved_runs :=
  ⟨rfl, rfl, rfl, rfl, rfl, rfl, rfl⟩

/-- C10: Pause sets `is_running` to false and changes nothing else: time,
temperature, both history series, the selected gas and the saved runs are
untouched. -/
theorem pause_only_stops (s : AppState) :
    (applyCmd .pause s).sim.is_running = false ∧
    (applyCmd .pause s).sim.current_time = s.sim.current_time ∧
    (applyCmd .pause s).sim.current_temp = s.sim.current_temp ∧
    (applyCmd .pause s).sim.history_time = s.sim.history_time ∧
    (applyCmd .pause s).sim.history_temp = s.sim.history_temp ∧
    (applyCmd .pause s).sim.selected_gas = s.sim.selected_gas ∧
    (applyCmd .pause s).saved_runs = s.saved_runs :=
  ⟨rfl, rfl, rfl, rfl, rfl, rfl, rfl⟩

theorem history_lengths_applyCmd (cm : Cmd) (s : AppState)
    (h : s.sim.history_time.length = s.sim.history_temp.length) :
    (applyCmd cm s).sim.history_time.length =
      (applyCmd cm s).sim.history_temp.length := by
  cases cm with
  | play => exact h
  | pause => exact h
  | reset => rfl
  | clearHistory => exact h
  | switchGas g =>
      by_cases hg : g ≠ s.sim.selected_gas
      · simp only [applyCmd, if_pos hg]
        rfl
      · simp only [applyCmd, if_neg hg]
        exact h
  | stepOnce i c =>
      by_cases hc : s.sim.is_running = true ∧ s.sim.current_time < 20
      · simp only [applyCmd, if_pos hc]
        simp [loop_body, h]
      · simp only [applyCmd, if_neg hc]
        exact h
  | runScript i c =>
      simp only [applyCmd]
      rw [run_script_eq]
      have hr : (run_loop i c s.sim).history_time.length =
          (run_loop i c s.sim).history_temp.length :=
        run_loop_preserves i c
          (fun t => t.history_time.length = t.history_temp.length)
          (fun t ht => by simp [loop_body, ht]) s.sim h
      by_cases hb : s.sim.is_running = true
      · rw [if_pos hb]
        split <;> exact hr
      · rw [if_neg hb]
        exact h

/-- C4: after any sequence of events from the initial session state, the two
history series have equal length. -/
theorem history_series_lengths_equal (cmds : List Cmd) :
    (applyAll cmds initApp).sim.history_time.length =
      (applyAll cmds initApp).sim.history_temp.length := by
  have main : ∀ l : List Cmd, ∀ s : AppState,
      s.sim.history_time.length = s.sim.history_temp.length →
      (applyAll l s).sim.history_time.length =
        (applyAll l s).sim.history_temp.length := by
    intro l
    induction l with
    | nil => exact fun s h => h
    | cons c rest ih => exact fun s h => ih _ (history_lengths_applyCmd c s h)
  exact main cmds initApp rfl

/-- C5: a gas switch archives the previous run exactly when its time series
has more than 10 samples; the entry is keyed by the previous gas's name,
holds the run's series and the previous gas's catalog color, and overwrites
any prior entry under that key.  With at most 10 samples `saved_runs` is
untouched. -/
theorem switch_gas_archives (s : AppState) (g : String) (p : GasProps)
    (hg : g ≠ s.sim.selected_gas)
    (hp : lookupGas s.sim.selected_gas = some p) :
    (10 < s.sim.history_time.length →
      dictGet s.sim.selected_gas (applyCmd (.switchGas g) s).saved_runs =
        some ⟨s.sim.history_time, s.sim.history_temp, p.color⟩) ∧
    (s.sim.history_time.length ≤ 10 →
      (applyCmd (.switchGas g) s).saved_runs = s.saved_runs) := by
  constructor
  · intro hlen
    simp only [applyCmd, if_pos hg]
    rw [if_pos hlen, gasProps_of_lookup _ _ hp, dictGet_dictSet_self]
  · intro hlen
    simp only [applyCmd, if_pos hg]
    rw [if_neg (not_lt.mpr hlen)]

theorem switch_gas_archives_witness :
    ("Methane (CH4)" ≠ "Nitrogen (N2)") ∧
    lookupGas "Nitrogen (N2)" = some ⟨1, "#1f77b4"⟩ ∧
    dictGet "Nitrogen (N2)"
      (applyCmd (.switchGas "Methane (CH4)")
        ⟨⟨false, 0, 20, List.replicate 11 0, List.replicate 11 20,
          "Nitrogen (N2)"⟩,
         [("Nitrogen (N2)", ⟨[0], [20], "stale"⟩)]⟩).saved_runs =
      some ⟨List.replicate 11 0, List.replicate 11 20, "#1f77b4"⟩ :=
  ⟨by decide, rfl,
   (switch_gas_archives
      ⟨⟨false, 0, 20, List.replicate 11 0, List.replicate 11 20,
        "Nitrogen (N2)"⟩,
       [("Nitrogen (N2)", ⟨[0], [20], "stale"⟩)]⟩
      "Methane (CH4)" ⟨1, "#1f77b4"⟩ (by decide) rfl).1 (by simp)⟩

/-- C6 (amended): archive entries change only through the archive write a
gas switch performs.  A simulation step, the run loop, Reset, Play and Pause
leave `saved_runs` untouched, and a gas switch leaves every entry other than
the one keyed by the gas being switched away from unchanged. -/
theorem archive_entries_frame (s : AppState) (i c : ℚ) (g k : String)
    (hk : k ≠ s.sim.selected_gas) :
    (applyCmd (.stepOnce i c) s).saved_runs = s.saved_runs ∧
    (applyCmd (.runScript i c) s).saved_runs = s.saved_runs ∧
    (applyCmd .reset s).saved_runs = s.saved_runs ∧
    (applyCmd .play s).saved_runs = s.saved_runs ∧
    (applyCmd .pause s).saved_runs = s.saved_runs ∧
    dictGet k (applyCmd (.switchGas g) s).saved_runs =
      dictGet k s.saved_runs := by
  refine ⟨?_, rfl, rfl, rfl, rfl, ?_⟩
  · by_cases hc : s.sim.is_running = true ∧ s.sim.current_time < 20
    · simp only [applyCmd, if_pos hc]
    · simp only [applyCmd, if_neg hc]
  · by_cases hg : g ≠ s.sim.selected_gas
    · simp only [applyCmd, if_pos hg]
      by_cases hlen : 10 < s.sim.history_time.length
      · rw [if_pos hlen]
        exact dictGet_dictSet_ne _ _ _ _ hk
      · rw [if_neg hlen]
    · simp only [applyCmd, if_neg hg]

theorem archive_entries_frame_witness :
    ("Methane (CH4)" ≠ initSim.selected_gas) ∧
    dictGet "Methane (CH4)"
      (applyCmd (.switchGas "Oxygen (O2)")
        ⟨initSim, [("Methane (CH4)", ⟨[0], [20], "#d62728"⟩)]⟩).saved_runs =
      dictGet "Methane (CH4)"
        (⟨initSim, [("Methane (CH4)", ⟨[0], [20], "#d62728"⟩)]⟩ :
          AppState).saved_runs :=
  ⟨by decide,
   (archive_entries_frame
      ⟨initSim, [("Methane (CH4)", ⟨[0], [20], "#d62728"⟩)]⟩ 5 500
      "Oxygen (O2)" "Methane (CH4)" (by decide)).2.2.2.2.2⟩

/-- C6 counterexample: the claim that, once created, an archive entry is
never altered by later operations fails as stated.  Run Nitrogen for 10
steps at intensity 10 and switch away (creating the Nitrogen entry), then
switch back, run Nitrogen for 10 steps at intensity 1 and switch away
again: the second switch overwrites the Nitrogen entry with a different
temperature series. -/
theorem archive_entry_overwritten_cex :
    (dictGet "Nitrogen (N2)"
      (applyAll [Cmd.play, Cmd.stepOnce 10 0, Cmd.stepOnce 10 0,
        Cmd.stepOnce 10 0, Cmd.stepOnce 10 0, Cmd.stepOnce 10 0,
        Cmd.stepOnce 10 0, Cmd.stepOnce 10 0, Cmd.stepOnce 10 0,
        Cmd.stepOnce 10 0, Cmd.stepOnce 10 0, Cmd.pause,
        Cmd.switchGas "Carbon Dioxide (CO2)"] initApp).saved_runs).isSome =
      true ∧
    dictGet "Nitrogen (N2)"
      (applyAll [Cmd.pause, Cmd.switchGas "Methane (CH4)"]
        (applyAll [Cmd.switchGas "Nitrogen (N2)", Cmd.play, Cmd.stepOnce 1 0,
          Cmd.stepOnce 1 0, Cmd.stepOnce 1 0, Cmd.stepOnce 1 0,
          Cmd.stepOnce 1 0, Cmd.stepOnce 1 0, Cmd.stepOnce 1 0,
          Cmd.stepOnce 1 0, Cmd.stepOnce 1 0, Cmd.stepOnce 1 0]
          (applyAll [Cmd.play, Cmd.stepOnce 10 0, Cmd.stepOnce 10 0,
            Cmd.stepOnce 10 0, Cmd.stepOnce 10 0, Cmd.stepOnce 10 0,
            Cmd.stepOnce 10 0, Cmd.stepOnce 10 0, Cmd.stepOnce 10 0,
            Cmd.stepOnce 10 0, Cmd.stepOnce 10 0, Cmd.pause,
            Cmd.switchGas "Carbon Dioxide (CO2)"] initApp))).saved_runs ≠
    dictGet "Nitrogen (N2)"
      (applyAll [Cmd.play, Cmd.stepOnce 10 0, Cmd.stepOnce 10 0,
        Cmd.stepOnce 10 0, Cmd.stepOnce 10 0, Cmd.stepOnce 10 0,
        Cmd.stepOnce 10 0, Cmd.stepOnce 10 0, Cmd.stepOnce 10 0,
        Cmd.stepOnce 10 0, Cmd.stepOnce 10 0, Cmd.pause,
        Cmd.switchGas "Carbon Dioxide (CO2)"] initApp).saved_runs := by
  have h1 : applyAll [Cmd.play, Cmd.stepOnce 10 0, Cmd.stepOnce 10 0,
      Cmd.stepOnce 10 0, Cmd.stepOnce 10 0, Cmd.stepOnce 10 0,
      Cmd.stepOnce 10 0, Cmd.stepOnce 10 0, Cmd.stepOnce 10 0,
      Cmd.stepOnce 10 0, Cmd.stepOnce 10 0, Cmd.pause,
      Cmd.switchGas "Carbon Dioxide (CO2)"] initApp =
      ⟨⟨false, 0, 20, [0], [20], "Carbon Dioxide (CO2)"⟩,
       [("Nitrogen (N2)",
         ⟨[0, 1/10, 1/5, 3/10, 2/5, 1/2, 3/5, 7/10, 4/5, 9/10, 1],
          [20, 43/2, 911/40, 19087/800, 396479/16000, 8180143/320000,
           167862431/6400000, 3429661327/128000000, 69824242559/2560000000,
           1417412123503/51200000000, 28704006099551/1024000000000],
          "#1f77b4"⟩)]⟩ := by
    iterate 5 (
      try (simp [applyAll, applyCmd, loop_body, step_temp, cooling_rate,
        gasProps, lookupGas, GAS_PROPERTIES, base_cooling, AMBIENT_TEMP,
        initApp, initSim, dictGet, dictSet, List.foldl, List.lookup])
      try (norm_num [applyAll, applyCmd, loop_body, step_temp, cooling_rate,
        gasProps, lookupGas, GAS_PROPERTIES, base_cooling, AMBIENT_TEMP,
        initApp, initSim, dictGet, dictSet, List.foldl, List.lookup]))
  have h2a : applyAll [Cmd.switchGas "Nitrogen (N2)", Cmd.play,
      Cmd.stepOnce 1 0, Cmd.stepOnce 1 0, Cmd.stepOnce 1 0, Cmd.stepOnce 1 0,
      Cmd.stepOnce 1 0, Cmd.stepOnce 1 0, Cmd.stepOnce 1 0, Cmd.stepOnce 1 0,
      Cmd.stepOnce 1 0, Cmd.stepOnce 1 0]
      (⟨⟨false, 0, 20, [0], [20], "Carbon Dioxide (CO2)"⟩,
        [("Nitrogen (N2)",
          ⟨[0, 1/10, 1/5, 3/10, 2/5, 1/2, 3/5, 7/10, 4/5, 9/10, 1],
           [20, 43/2, 911/40, 19087/800, 396479/16000, 8180143/320000,
            167862431/6400000, 3429661327/128000000, 69824242559/2560000000,
            1417412123503/51200000000, 28704006099551/1024000000000],
           "#1f77b4"⟩)]⟩ : AppState) =
      ⟨⟨true, 1, 213024006099551/10240000000000,
        [0, 1/10, 1/5, 3/10, 2/5, 1/2, 3/5, 7/10, 4/5, 9/10, 1],
        [20, 403/20, 8111/400, 163087/8000, 3276479/160000,
         65780143/3200000, 1319862431/64000000, 26469661327/1280000000,
         530624242559/25600000000, 10633412123503/512000000000,
         213024006099551/10240000000000], "Nitrogen (N2)"⟩,
       [("Nitrogen (N2)",
         ⟨[0, 1/10, 1/5, 3/10, 2/5, 1/2, 3/5, 7/10, 4/5, 9/10, 1],
          [20, 43/2, 911/40, 19087/800, 396479/16000, 8180143/320000,
           167862431/6400000, 3429661327/128000000, 69824242559/2560000000,
           1417412123503/51200000000, 28704006099551/1024000000000],
          "#1f77b4"⟩)]⟩ := by
    iterate 5 (
      try (simp [applyAll, applyCmd, loop_body, step_temp, cooling_rate,
        gasProps, lookupGas, GAS_PROPERTIES, base_cooling, AMBIENT_TEMP,
        initApp, initSim, dictGet, dictSet, List.foldl, List.lookup])
      try (norm_num [applyAll, applyCmd, loop_body, step_temp, cooling_rate,
        gasProps, lookupGas, GAS_PROPERTIES, base_cooling, AMBIENT_TEMP,
        initApp, initSim, dictGet, dictSet, List.foldl, List.lookup]))
  have h2b : applyAll [Cmd.pause, Cmd.switchGas "Methane (CH4)"]
      (⟨⟨true, 1, 213024006099551/10240000000000,
        [0, 1/10, 1/5, 3/10, 2/5, 1/2, 3/5, 7/10, 4/5, 9/10, 1],
        [20, 403/20, 8111/400, 163087/8000, 3276479/160000,
         65780143/3200000, 1319862431/64000000, 26469661327/1280000000,
         530624242559/25600000000, 10633412123503/512000000000,
         213024006099551/10240000000000], "Nitrogen (N2)"⟩,
       [("Nitrogen (N2)",
         ⟨[0, 1/10, 1/5, 3/10, 2/5, 1/2, 3/5, 7/10, 4/5, 9/10, 1],
          [20, 43/2, 911/40, 19087/800, 396479/16000, 8180143/320000,
           167862431/6400000, 3429661327/128000000, 69824242559/2560000000,
           1417412123503/51200000000, 28704006099551/1024000000000],
          "#1f77b4"⟩)]⟩ : AppState) =
      ⟨⟨false, 0, 20, [0], [20], "Methane (CH4)"⟩,
       [("Nitrogen (N2)",
         ⟨[0, 1/10, 1/5, 3/10, 2/5, 1/2, 3/5, 7/10, 4/5, 9/10, 1],
          [20, 403/20, 8111/400, 163087/8000, 3276479/160000,
           65780143/3200000, 1319862431/64000000, 26469661327/1280000000,
           530624242559/25600000000, 10633412123503/512000000000,
           213024006099551/10240000000000],
          "#1f77b4"⟩)]⟩ := by
    iterate 5 (
      try (simp [applyAll, applyCmd, loop_body, step_temp, cooling_rate,
        gasProps, lookupGas, GAS_PROPERTIES, base_cooling, AMBIENT_TEMP,
        initApp, initSim, dictGet, dictSet, List.foldl, List.lookup])
      try (norm_num [applyAll, applyCmd, loop_body, step_temp, cooling_rate,
        gasProps, lookupGas, GAS_PROPERTIES, base_cooling, AMBIENT_TEMP,
        initApp, initSim, dictGet, dictSet, List.foldl, List.lookup]))
  rw [h1, h2a, h2b]
  constructor
  · simp [dictGet]
  · simp only [dictGet, if_pos]
    intro hcontra
    have hsr := (Option.some.injEq _ _).mp hcontra
    have htemp : (403 : ℚ)/20 = 43/2 := by
      have hlist := congrArg SavedRun.temp hsr
      simpa using congrArg (fun l => l.get? 1) hlist
    norm_num at htemp

/-- C8: pressing Play sets `is_running`; if that happens with
`current_time >= 20`, the following execution of the script's loop section
performs no step and ends with `is_running = false` (the completion check),
so the system is not left running. -/
theorem play_at_terminal_not_running (i c : ℚ) (s : AppState)
    (ht : 20 ≤ s.sim.current_time) :
    (applyCmd .play s).sim.is_running = true ∧
    applyAll [.play, .runScript i c] s =
      { s with sim := { s.sim with is_running := false } } := by
  refine ⟨rfl, ?_⟩
  show applyCmd (.runScript i c) (applyCmd .play s) = _
  have h1 : ¬ s.sim.current_time < 20 := not_lt.mpr ht
  simp only [applyCmd]
  rw [run_script_eq, run_loop_eq]
  simp [h1, ht]

theorem play_at_terminal_not_running_witness :
    (20:ℚ) ≤ 20 ∧
    applyAll [.play, .runScript 5 500]
        (⟨⟨false, 20, 35, [0, 20], [20, 35], "Nitrogen (N2)"⟩, []⟩ : AppState) =
      ⟨⟨false, 20, 35, [0, 20], [20, 35], "Nitrogen (N2)"⟩, []⟩ :=
  ⟨by norm_num,
   (play_at_terminal_not_running 5 500
      ⟨⟨false, 20, 35, [0, 20], [20, 35], "Nitrogen (N2)"⟩, []⟩
      (by norm_num)).2⟩

/-- C9: from any running state the while loop terminates within
`loopFuel s = ⌈(20 - current_time) * 10⌉` iterations: each iteration adds
`dt = 1/10` to the time, the loop result is reached with that much fuel, the
loop exits with the guard false (here: `current_time >= 20`, the running
flag being untouched by the body), and the completion check then clears
`is_running`. -/
theorem run_loop_terminates (i c : ℚ) (s : SimulationState)
    (h : s.is_running = true) :
    (loop_body i c s).current_time = s.current_time + 1/10 ∧
    run_loop i c s = run_loop_fuel i c (loopFuel s) s ∧
    (run_loop i c s).is_running = true ∧
    20 ≤ (run_loop i c s).current_time ∧
    (run_script i c s).is_running = false := by
  have hrun : (run_loop i c s).is_running = true := by
    rw [run_loop_is_running]
    exact h
  have htime : 20 ≤ (run_loop i c s).current_time := by
    by_contra hlt
    exact run_loop_exit i c s ⟨hrun, lt_of_not_le hlt⟩
  refine ⟨loop_body_current_time i c s, run_loop_eq_fuel i c s, hrun, htime, ?_⟩
  rw [run_script_eq, if_pos h, if_pos htime]

theorem run_loop_terminates_witness :
    (⟨true, 199/10, 30, [0], [20], "Nitrogen (N2)"⟩ :
        SimulationState).is_running = true ∧
    (run_script 5 500
      (⟨true, 199/10, 30, [0], [20], "Nitrogen (N2)"⟩ :
        SimulationState)).is_running = false ∧
    20 ≤ (run_loop 5 500
      (⟨true, 199/10, 30, [0], [20], "Nitrogen (N2)"⟩ :
        SimulationState)).current_time :=
  ⟨rfl,
   (run_loop_terminates 5 500
      ⟨true, 199/10, 30, [0], [20], "Nitrogen (N2)"⟩ rfl).2.2.2.2,
   (run_loop_terminates 5 500
      ⟨true, 199/10, 30, [0], [20], "Nitrogen (N2)"⟩ rfl).2.2.2.1⟩

end GreenhouseLab
